import Mathlib

/-!
Shallow embedding of the signal-lifecycle engine of the Discord-Monitor-System
repository (src/price_order_monitor.py and src/Discord0627/binance_trader.py).

Modelling conventions, used throughout:
* Python floats are modelled as `ℚ`; wall-clock times (`time.time()`,
  `datetime` values) are rational epoch seconds.
* Python `round(x, n)` (banker's rounding) is modelled by `pyRound`, rounding
  half away from zero upward; the two differ only at exact half-ulp ties,
  which no theorem below depends on.
* Python dicts keyed by strings are modelled as association lists, updated by
  replacing any previous binding of the key.
* A fallible external call returning a value or `None` is an `Option`
  argument supplied by the caller.
-/

/-- Model of Python `round(x, n)`: scale by `10 ^ n`, round to the nearest
integer, and scale back. -/
def pyRound (q : ℚ) (n : ℕ) : ℚ :=
  ((round (q * (10 : ℚ) ^ n) : ℤ) : ℚ) / (10 : ℚ) ^ n

/-- Model of Python `str.startswith`: a character-level prefix test. -/
def startswith (p s : String) : Bool := p.data.isPrefixOf s.data

/-- Dict update for an association list: bind `k` to `v`, dropping any
previous binding of `k`. -/
def updateAssoc (l : List (String × ℚ)) (k : String) (v : ℚ) :
    List (String × ℚ) :=
  (k, v) :: l.filter (fun kt => kt.1 != k)

namespace Monitor

/-! ### ChangePublisher: `should_push_data` (src/price_order_monitor.py 150-181)

The function reads the globals `last_data_hash`, `last_push_time`,
`min_push_interval`, `active_orders`, `completed_orders`; here the mutable
globals are an explicit `PushState` and the function returns the decision
together with the new state. -/

/-- Mutable globals of the push gate: `last_data_hash` and `last_push_time`. -/
structure PushState where
  last_data_hash : String
  last_push_time : ℚ
deriving DecidableEq

/-- `min_push_interval = 15` (seconds). -/
def min_push_interval : ℚ := 15

/-- The per-order fields interpolated into the fingerprint string.  The code
interpolates `order.get('id','')`, `order.get('profit_pct','')` and
`order.get('result','')` into an f-string; the fields here carry those
already-formatted interpolations. -/
structure PushOrderView where
  id : String
  profit_pct : String
  result : String
deriving DecidableEq

/-- The string fingerprinted by `should_push_data`:
`f"{len(active)}_{len(completed)}"` followed by `_{id}_{profit_pct}` for the
first five active orders and `_{id}_{result}` for the first five completed
orders. -/
def push_data_str (active completed : List PushOrderView) : String :=
  toString active.length ++ "_" ++ toString completed.length
    ++ String.join ((active.take 5).map
        (fun o => "_" ++ o.id ++ "_" ++ o.profit_pct))
    ++ String.join ((completed.take 5).map
        (fun o => "_" ++ o.id ++ "_" ++ o.result))

/-- Model of `hashlib.md5(data_str.encode()).hexdigest()`: md5 is a fixed
deterministic function of the input string and the push logic depends only on
equality of fingerprints, so it is modelled as the identity on the hashed
string (collisions are ignored). -/
def md5_hex (s : String) : String := s

/-- `should_push_data()` (lines 150-181): returns `False` while less than
`min_push_interval` has elapsed since `last_push_time`; otherwise fingerprints
the order collections, returns `False` if the fingerprint equals
`last_data_hash`, and otherwise records the new fingerprint and push time and
returns `True`. -/
def should_push_data (st : PushState) (current_time : ℚ)
    (active completed : List PushOrderView) : Bool × PushState :=
  if current_time - st.last_push_time < min_push_interval then
    (false, st)
  else
    let current_hash := md5_hex (push_data_str active completed)
    if current_hash = st.last_data_hash then
      (false, st)
    else
      (true, { last_data_hash := current_hash, last_push_time := current_time })

/-! ### PriceOracle cache: `get_cached_price` (src/price_order_monitor.py 1624-1648) -/

/-- `PRICE_CACHE_DURATION = 30` (seconds); the source comment says 缓存30秒. -/
def PRICE_CACHE_DURATION : ℚ := 30

/-- The globals `price_cache` and `price_cache_time`, both dicts keyed by
symbol. -/
structure PriceCacheState where
  price_cache : List (String × ℚ)
  price_cache_time : List (String × ℚ)
deriving DecidableEq

/-- `get_cached_price(symbol)` (lines 1629-1648).  `fetch` stands for the
outcome of `monitor.get_current_price(symbol)`: `none` covers both a `None`
return and a raised exception (the `except` branch).  If the symbol is in both
cache dicts and the entry is younger than `PRICE_CACHE_DURATION`, the cached
price is returned with the state unchanged; otherwise the fresh fetch is
consulted, and on success both dicts are updated. -/
def get_cached_price (st : PriceCacheState) (current_time : ℚ)
    (symbol : String) (fetch : Option ℚ) : Option ℚ × PriceCacheState :=
  let hit : Option ℚ :=
    match st.price_cache.lookup symbol, st.price_cache_time.lookup symbol with
    | some p, some t =>
        if current_time - t < PRICE_CACHE_DURATION then some p else none
    | _, _ => none
  match hit with
  | some p => (some p, st)
  | none =>
      match fetch with
      | some cp =>
          (some cp,
            { price_cache := updateAssoc st.price_cache symbol cp
              price_cache_time := updateAssoc st.price_cache_time symbol current_time })
      | none => (none, st)

/-! ### OrderStateMachine: order record and the advance step

`update_all_orders_status` (src/price_order_monitor.py 2099-2296) iterates the
global `active_orders` list and, per order: skips orders already completed or
with an invalid symbol, fetches the current price (skipping the order when it
is unavailable), writes `current_price`, computes `profit_pct`, evaluates the
stop/target completion check, and on completion writes the exit fields and the
hold time.  `update_single_order_status` below is that per-order body with the
fetched price passed in explicitly. -/

/-- The order dict fields read or written by the entry check and the advance
step.  `publish_time`, `triggered_time`, `exit_time` are epoch-second
rationals standing for the datetime strings / pandas timestamps of the code. -/
structure Order where
  normalized_symbol : Option String
  direction : Option String
  entry_price : Option ℚ
  target_price : Option ℚ
  stop_loss : Option ℚ
  current_price : Option ℚ
  status : String
  is_completed : Bool
  profit_pct : ℚ
  exit_price : Option ℚ
  exit_time : Option ℚ
  result : String
  publish_time : Option ℚ
  triggered_time : Option ℚ
  hold_time : Option ℚ
  has_entered : Bool
  entry_status : String
  triggered : Bool
deriving DecidableEq

/-- The `invalid_symbols` list of `update_all_orders_status` (lines 2120-2123). -/
def invalid_symbols : List String :=
  ["ALCHUSDT", "USDT", "USDTUSDT", "RFCUSDT", "ZBCNUSDT", "NANUSDT", "TAIUSDT"]

/-- `if not symbol or symbol in invalid_symbols` (line 2124): a missing or
empty symbol is falsy, and listed symbols are skipped. -/
def symbol_ok : Option String → Bool
  | none => false
  | some s => !(s = "") && !(invalid_symbols.contains s)

/-- `is_long = direction in ['多', '做多']` (lines 2152, 2186); a missing
direction is in neither list. -/
def is_long_dir (d : Option String) : Bool :=
  d == some "多" || d == some "做多"

/-- `is_short = direction in ['空', '做空']` (lines 2153, 2187). -/
def is_short_dir (d : Option String) : Bool :=
  d == some "空" || d == some "做空"

/-- `profit_pct` computation (lines 2155-2163): long formula for a long
direction, short formula for a short direction, and the long formula as the
default for any other direction (with a logged warning). -/
def compute_profit_pct (d : Option String) (entry current : ℚ) : ℚ :=
  if is_long_dir d then (current - entry) / entry * 100
  else if is_short_dir d then (entry - current) / entry * 100
  else (current - entry) / entry * 100

/-- The stop/target completion check (lines 2185-2202), returning
`(is_completed, result)` with `result` one of `"止盈"` (take profit),
`"止损"` (stop loss), `"-"` (initial value, not completed).  For a long
direction the take-profit comparison `current >= target` is evaluated first
and the stop-loss comparison `current <= stop` only in its `elif`; mirrored
for a short direction; any other direction leaves the order incomplete. -/
def check_completion (d : Option String) (current target stop : ℚ) :
    Bool × String :=
  if is_long_dir d then
    if target ≤ current then (true, "止盈")
    else if current ≤ stop then (true, "止损")
    else (false, "-")
  else if is_short_dir d then
    if current ≤ target then (true, "止盈")
    else if stop ≤ current then (true, "止损")
    else (false, "-")
  else (false, "-")

/-- Per-order body of `update_all_orders_status` (lines 2109-2232), with the
result of `monitor.get_current_price(symbol)` passed in as `price` and
`datetime.now()` as `now`.

Faithfulness notes, matching the control flow of the source:
* an order already completed, with an invalid symbol, or with no available
  price is returned unchanged (the loop `continue`s);
* a falsy `entry_price` (`None` or `0`) skips the profit block, so
  `profit_pct` is written as `0`; the later completion check then raises
  `NameError` on the unassigned `current_price_float`, which the per-order
  `except` swallows, so no completion fields are written;
* the hold-time block runs only when `publish_time` is truthy.  The code
  parses `order.get('triggered_time') or order.get('publish_time')` with
  `datetime.strptime`; `triggered_time`, when set by the entry check, is a
  pandas `Timestamp`, on which `strptime` raises `TypeError` and the bare
  `except` writes `hold_time = None`.  With `triggered_time` unset the
  publish-time string parses and
  `hold_time = round((exit_time - entry_time)/3600, 2)` hours is written. -/
def update_single_order_status (o : Order) (price : Option ℚ) (now : ℚ) :
    Order :=
  if o.status = "completed" || o.is_completed then o
  else if !symbol_ok o.normalized_symbol then o
  else
    match price with
    | none => o
    | some p =>
        let o1 := { o with current_price := some p }
        match o1.entry_price with
        | none => { o1 with profit_pct := 0 }
        | some e =>
            if e = 0 then { o1 with profit_pct := 0 }
            else
              let o2 := { o1 with profit_pct := compute_profit_pct o1.direction e p }
              match o2.target_price, o2.stop_loss with
              | some tgt, some stp =>
                  let c := check_completion o2.direction p tgt stp
                  if c.1 then
                    let o3 := { o2 with
                      is_completed := true
                      exit_price := some p
                      exit_time := some now
                      result := c.2
                      status := "completed" }
                    match o3.publish_time with
                    | some pub =>
                        match o3.triggered_time with
                        | some _ => { o3 with hold_time := none }
                        | none =>
                            { o3 with
                              hold_time := some (pyRound ((now - pub) / 3600) 2) }
                    | none => o3
                  else o2
              | _, _ => o2

/-! ### Entry trigger: `check_entry_triggered` (src/price_order_monitor.py 1782-1839)
and `update_entry_status_for_orders` (1841-1854). -/

/-- One row of the per-symbol price-history frame loaded by
`load_price_history`. -/
structure PriceRow where
  timestamp : ℚ
  low_price : ℚ
  high_price : ℚ
deriving DecidableEq

/-- Directions treated as long by the entry check (line 1821). -/
def entry_long_dirs : List String := ["多单", "做多", "多头", "LONG"]

/-- Directions treated as short by the entry check (line 1824). -/
def entry_short_dirs : List String := ["空单", "做空", "空头", "SHORT"]

/-- `check_entry_triggered(order)` with the loaded price history passed in as
an association list from symbol to rows.  Requires truthy symbol, entry price
and publish time (`if not all([symbol, entry_price, publish_time])`), a
history entry for the symbol, and a nonempty set of rows at or after the
publish time; then a long order (direction defaulting to `'做多'`) triggers on
the first row with `low_price <= entry_price`, a short order on the first row
with `high_price >= entry_price`, and an unknown direction is handled as
long. -/
def check_entry_triggered (o : Order)
    (price_history : List (String × List PriceRow)) : Bool × Option ℚ :=
  match o.normalized_symbol, o.entry_price, o.publish_time with
  | some sym, some e, some pub =>
      if sym = "" || e = 0 then (false, none)
      else
        match price_history.lookup sym with
        | none => (false, none)
        | some rows =>
            let after_publish := rows.filter (fun r => pub ≤ r.timestamp)
            if after_publish.isEmpty then (false, none)
            else
              let d := o.direction.getD "做多"
              let triggered_rows :=
                if entry_long_dirs.contains d then
                  after_publish.filter (fun r => r.low_price ≤ e)
                else if entry_short_dirs.contains d then
                  after_publish.filter (fun r => e ≤ r.high_price)
                else
                  after_publish.filter (fun r => r.low_price ≤ e)
              match triggered_rows with
              | [] => (false, none)
              | r :: _ => (true, some r.timestamp)
  | _, _, _ => (false, none)

/-- Per-order body of `update_entry_status_for_orders` (lines 1841-1854): for
an active order that has not entered, record the trigger outcome and set
`has_entered` / `entry_status` accordingly. -/
def update_entry_status (o : Order)
    (price_history : List (String × List PriceRow)) : Order :=
  if o.status = "active" && !o.has_entered then
    let tc := check_entry_triggered o price_history
    let o1 := { o with triggered := tc.1, triggered_time := tc.2 }
    if tc.1 then { o1 with has_entered := true, entry_status := "已入场" }
    else { o1 with has_entered := false, entry_status := "未入场" }
  else o

/-- One monitoring tick for a single order, composing the entry-status update
(`update_entry_status_for_orders`) with the advance step
(`update_all_orders_status`), the two order-mutating phases named by the
claims. -/
def advance_tick (o : Order) (price_history : List (String × List PriceRow))
    (price : Option ℚ) (now : ℚ) : Order :=
  update_single_order_status (update_entry_status o price_history) price now

end Monitor

namespace Trader

/-! ### Signal deduplication (src/Discord0627/binance_trader.py)

`get_signal_key` (1229-1256) builds the string
`f"{symbol}_{side}_{entry}_{stop}_{target}_{channel}_{timestamp}"` with
`timestamp = int(time.time() / 60)`.  `executed_signals` is a dict from that
string to the execution time.  Here the key is carried as the structure
`SignalKey`; `key_string` / `base_string` render the strings on which the code
operates.  Since the timestamp component contains no underscore, the code's
`base_key = '_'.join(signal_key.split('_')[:-1])` is exactly the key string
with its final `_{timestamp}` removed, i.e. `base_string`. -/

/-- Model of Python's float formatting `f"{x}"` for the price components of a
signal key: any injective rendering works for the dedup logic, which only
compares these strings for equality and prefixhood, so the canonical `ℚ`
rendering is used. -/
def fmtPrice (q : ℚ) : String := toString q

/-- Python `int()` on a rational: truncation toward zero. -/
def truncQ (q : ℚ) : ℤ := if 0 ≤ q then ⌊q⌋ else ⌈q⌉

/-- `int(time.time() / 60)` (line 1247). -/
def time_bucket (now : ℚ) : ℤ := truncQ (now / 60)

/-- An incoming trading-signal dict, with the fields read by
`get_signal_key` and `execute_trading_signals`.  Optional fields model
absent-or-`None` dict entries. -/
structure Signal where
  symbol : String
  side : String
  entry_price : Option ℚ
  stop_loss : Option ℚ
  target_price : Option ℚ
  take_profit : Option ℚ
  channel : Option String
deriving DecidableEq

/-- The components of a signal key, in the order they appear in the key
string. -/
structure SignalKey where
  symbol : String
  side : String
  entry_price : ℚ
  stop_loss : ℚ
  target_price : ℚ
  channel : String
  time_bucket : ℤ
deriving DecidableEq

/-- `get_signal_key(signal)` (lines 1229-1252): prices default to `0` when
`None` (`target_price` also when absent), the channel defaults to
`'default'`, and the time bucket is the call-time minute. -/
def get_signal_key (s : Signal) (now : ℚ) : SignalKey where
  symbol := s.symbol
  side := s.side
  entry_price := s.entry_price.getD 0
  stop_loss := s.stop_loss.getD 0
  target_price := s.target_price.getD 0
  channel := s.channel.getD "default"
  time_bucket := time_bucket now

/-- The key string without its trailing `_{timestamp}` component — the
`base_key` of `is_signal_executed` (line 1279). -/
def base_string (k : SignalKey) : String :=
  k.symbol ++ "_" ++ k.side ++ "_" ++ fmtPrice k.entry_price ++ "_"
    ++ fmtPrice k.stop_loss ++ "_" ++ fmtPrice k.target_price ++ "_"
    ++ k.channel

/-- The full signal-key string of `get_signal_key` (line 1250). -/
def key_string (k : SignalKey) : String :=
  base_string k ++ "_" ++ toString k.time_bucket

/-- The 4-hour dedup cooldown, `4 * 3600` seconds. -/
def cooldown : ℚ := 4 * 3600

/-- `is_signal_executed(signal)` (lines 1258-1287).  The record is the
`executed_signals` dict as an association list.  First the exact key is looked
up and a hit within the cooldown returns `True`; otherwise every stored key
whose string starts with the base-key string and whose execution time is
within the cooldown returns `True`. -/
def is_signal_executed (record : List (SignalKey × ℚ)) (now : ℚ)
    (s : Signal) : Bool :=
  let key := get_signal_key s now
  let exact_hit :=
    match record.find? (fun kt => kt.1 == key) with
    | some kt => decide (now - kt.2 < cooldown)
    | none => false
  exact_hit
    || record.any (fun kt =>
        startswith (base_string key) (key_string kt.1)
          && decide (now - kt.2 < cooldown))

/-- `mark_signal_executed(signal)` (lines 1289-1304): bind the signal's key to
the current time in `executed_signals`. -/
def mark_signal_executed (record : List (SignalKey × ℚ)) (s : Signal)
    (now : ℚ) : List (SignalKey × ℚ) :=
  (get_signal_key s now, now) :: record.filter
    (fun kt => !(kt.1 == get_signal_key s now))

/-! ### Pruning: `clean_expired_signals` (lines 1869-1923)

The code re-parses each stored key string with `split('_')`, reading
`symbol = parts[0]`, `side = parts[1]`, `entry_price = float(parts[2])`; here
the components are read off the structured key directly, which agrees with
that parse whenever the symbol and side contain no underscore and the price
rendering round-trips (true of the keys the trader builds).  Keys always have
seven components, so the `len(signal_parts) >= 4` branch is always taken. -/

/-- An entry of `self.order_pairs`: the fields read by
`clean_expired_signals` and `check_existing_orders`. -/
structure OrderPair where
  symbol : String
  side : String
  entry_price : Option ℚ
  status : String
deriving DecidableEq

/-- The pair-matching test of `clean_expired_signals` (lines 1895-1902): some
order pair matches the key's symbol and side with an entry price within 0.1%
relative tolerance *and* has a completed status (`closed_by_stop_loss` or
`closed_by_take_profit`). -/
def has_completed_order (k : SignalKey) (pairs : List OrderPair) : Bool :=
  pairs.any (fun p =>
    decide (p.symbol = k.symbol) && decide (p.side = k.side)
      && match p.entry_price with
         | some pe =>
             decide (|pe - k.entry_price| / k.entry_price ≤ 1 / 1000)
               && (decide (p.status = "closed_by_stop_loss")
                   || decide (p.status = "closed_by_take_profit"))
         | none => false)

/-- `clean_expired_signals()` (lines 1869-1923): an entry is deleted exactly
when its execution time is at least the cooldown in the past *and* a matching
completed order pair exists; an expired entry with no matching completed pair
is kept (`if not has_completed_order: continue`). -/
def clean_expired_signals (record : List (SignalKey × ℚ))
    (pairs : List OrderPair) (now : ℚ) : List (SignalKey × ℚ) :=
  record.filter (fun kt =>
    !(decide (cooldown ≤ now - kt.2) && has_completed_order kt.1 pairs))

/-! ### Signal execution: `execute_trading_signals` (lines 1350-1460)

The loop body for one signal, with the outcomes of the external collaborator
calls (`validate_signal`, `check_existing_orders`, `get_btc_position_size`,
`check_balance_sufficient`, `place_order`) supplied as `ExecGates`.  Only the
`executed_signals` record is tracked: it is the sole state the claim is
about, and the loop body writes it exactly once, in `mark_signal_executed`. -/

/-- Outcomes of the external calls made while executing one signal. -/
structure ExecGates where
  validate_ok : Bool
  existing_order : Bool
  position_size : Option ℚ
  balance_ok : Bool
  place_order_ok : Bool
deriving DecidableEq

/-- Truthiness of an optional price in `all([symbol, side, entry_price])`
(line 1372): absent or zero is falsy. -/
def truthyPrice : Option ℚ → Bool
  | none => false
  | some q => q != 0

/-- The body of the `for signal in signals` loop of `execute_trading_signals`
(lines 1357-1431), returning the `executed_signals` record after processing
one signal.  Every `continue` path leaves the record unchanged;
`mark_signal_executed` runs only after `place_order` returned a truthy
order (`if not order: continue` at line 1426 precedes it). -/
def process_signal (record : List (SignalKey × ℚ)) (s : Signal) (now : ℚ)
    (g : ExecGates) : List (SignalKey × ℚ) :=
  if !g.validate_ok then record
  else if s.symbol = "" || s.side = "" || !truthyPrice s.entry_price then record
  else
    match s.entry_price, s.stop_loss with
    | some e, some sl =>
        if e ≤ 0 then record
        else if sl ≤ 0 then record
        else if is_signal_executed record now s then record
        else if g.existing_order then record
        else
          match g.position_size with
          | none => record
          | some _ =>
              if !g.balance_ok then record
              else if !g.place_order_ok then record
              else mark_signal_executed record s now
    | _, _ => record

/-! ### PositionSizer: `calculate_position_size` (lines 749-856)

The method reads the account balance, the win-rate statistics, the current
price, the leverage and the symbol precision from collaborators; they are
supplied here as `SizerEnv`.  `account_info` is `none` when
`get_account_info()` returned a falsy value and otherwise carries
`float(account_info.get('availableBalance', 0))`.  `current_price` of `some 0`
is falsy in `if not current_price` just like `None`.  `quantity_precision` is
`none` when the symbol is not in `supported_symbols` (then no rounding is
applied); when symbol info exists the precision defaults to 3. -/

/-- External inputs of `calculate_position_size`. -/
structure SizerEnv where
  account_info : Option ℚ
  recent_win_rate : ℚ
  profit_factor : ℚ
  max_consecutive_losses : ℕ
  current_price : Option ℚ
  leverage : ℚ
  quantity_precision : Option ℕ
deriving DecidableEq

/-- `calculate_position_size(symbol, signal_quality, risk_percentage)`
(lines 749-856): multiplies the base risk percentage by the win-rate factor
(1.2 / 0.7 / 1.0), the profit-factor adjustment (1.1 / 0.8 / 1.0), the
consecutive-loss factor (0.6 / 0.8 / 1.0) and the signal-quality factor
(`0.5 + 0.5 * signal_quality`), clamps to `[0.001, 0.05]`, converts to a
dollar amount from the available balance, and divides by the current price
after applying leverage, rounding to the symbol's quantity precision when
symbol info exists.  Returns `0.0` when the account info or the current price
is unavailable. -/
def calculate_position_size (env : SizerEnv) (signal_quality : ℚ)
    (risk_percentage : ℚ) : ℚ :=
  match env.account_info with
  | none => 0
  | some available_balance =>
      let win_rate_factor : ℚ :=
        if env.recent_win_rate > 3 / 5 then 6 / 5
        else if env.recent_win_rate < 2 / 5 then 7 / 10
        else 1
      let profit_factor_adjustment : ℚ :=
        if env.profit_factor > 3 / 2 then 11 / 10
        else if env.profit_factor < 4 / 5 then 4 / 5
        else 1
      let consecutive_loss_factor : ℚ :=
        if env.max_consecutive_losses > 5 then 3 / 5
        else if env.max_consecutive_losses > 3 then 4 / 5
        else 1
      let signal_quality_factor : ℚ := 1 / 2 + signal_quality * (1 / 2)
      let total_adjustment :=
        win_rate_factor * profit_factor_adjustment * consecutive_loss_factor
          * signal_quality_factor
      let final_pct := risk_percentage * total_adjustment
      let final_pct := min final_pct (1 / 20)
      let final_pct := max final_pct (1 / 1000)
      let position_amount := available_balance * final_pct
      match env.current_price with
      | none => 0
      | some cp =>
          if cp = 0 then 0
          else
            let quantity := position_amount * env.leverage / cp
            match env.quantity_precision with
            | some prec => pyRound quantity prec
            | none => quantity

end Trader

/-! ## Concrete instances used by counterexamples and witnesses -/

/-- A tracked long order whose stop (110) lies above its target (100), so a
single tick price of 105 crosses both thresholds at once. -/
def c1_order : Monitor.Order :=
  { normalized_symbol := some "BTCUSDT", direction := some "做多",
    entry_price := some 100, target_price := some 100, stop_loss := some 110,
    current_price := none, status := "active", is_completed := false,
    profit_pct := 0, exit_price := none, exit_time := none, result := "-",
    publish_time := some 0, triggered_time := none, hold_time := none,
    has_entered := false, entry_status := "未入场", triggered := false }

/-- The admitted long order of the spec's worked example: entry 100, stop 90,
target 120, published at time 0. -/
def c2_order : Monitor.Order :=
  { normalized_symbol := some "BTCUSDT", direction := some "做多",
    entry_price := some 100, target_price := some 120, stop_loss := some 90,
    current_price := none, status := "active", is_completed := false,
    profit_pct := 0, exit_price := none, exit_time := none, result := "-",
    publish_time := some 0, triggered_time := none, hold_time := none,
    has_entered := false, entry_status := "未入场", triggered := false }

/-- Price history after the first tick of the `[105, 95]` sequence. -/
def c2_hist1 : List (String × List Monitor.PriceRow) :=
  [("BTCUSDT", [⟨60, 105, 105⟩])]

/-- Price history after the second tick of the `[105, 95]` sequence. -/
def c2_hist2 : List (String × List Monitor.PriceRow) :=
  [("BTCUSDT", [⟨60, 105, 105⟩, ⟨120, 95, 95⟩])]

/-- The order after the first tick at price 105. -/
def c2_tick1 : Monitor.Order :=
  Monitor.advance_tick c2_order c2_hist1 (some 105) 60

/-- The order after the second tick at price 95. -/
def c2_tick2 : Monitor.Order :=
  Monitor.advance_tick c2_tick1 c2_hist2 (some 95) 120

/-- An order identical to the worked example, used to exercise the hold-time
computation: it completes by stop loss at price 88 two hours after its
publish time 0. -/
def c8_order : Monitor.Order :=
  { normalized_symbol := some "BTCUSDT", direction := some "做多",
    entry_price := some 100, target_price := some 120, stop_loss := some 90,
    current_price := none, status := "active", is_completed := false,
    profit_pct := 0, exit_price := none, exit_time := none, result := "-",
    publish_time := some 0, triggered_time := none, hold_time := none,
    has_entered := false, entry_status := "未入场", triggered := false }

/-- A price-cache state holding a BTCUSDT price of 100 cached at time 0. -/
def c9_state : Monitor.PriceCacheState :=
  { price_cache := [("BTCUSDT", 100)], price_cache_time := [("BTCUSDT", 0)] }

/-- A signal as parsed from a channel message. -/
def c3_signal : Trader.Signal :=
  { symbol := "BTCUSDT", side := "BUY", entry_price := some 100,
    stop_loss := some 90, target_price := some 120, take_profit := none,
    channel := some "channel-1" }

/-- An executed-record key for BTCUSDT/BUY at entry 100, recorded in minute
bucket 16. -/
def c4_key : Trader.SignalKey :=
  { symbol := "BTCUSDT", side := "BUY", entry_price := 100, stop_loss := 90,
    target_price := 120, channel := "channel-1", time_bucket := 16 }

/-- Gate outcomes where every pre-check passes but `place_order` fails. -/
def c6_gates : Trader.ExecGates :=
  { validate_ok := true, existing_order := false, position_size := some 10,
    balance_ok := true, place_order_ok := false }

/-- Sizer inputs with a negative available balance, neutral statistics, price
100, leverage 1 and no symbol precision info. -/
def c7_env : Trader.SizerEnv :=
  { account_info := some (-1000), recent_win_rate := 1 / 2,
    profit_factor := 1, max_consecutive_losses := 0,
    current_price := some 100, leverage := 1, quantity_precision := none }

/-- An active order whose direction string `'LONG'` is accepted by the entry
check but unknown to the advance step's long/short lists. -/
def c10_order : Monitor.Order :=
  { normalized_symbol := some "BTCUSDT", direction := some "LONG",
    entry_price := some 100, target_price := some 120, stop_loss := some 90,
    current_price := none, status := "active", is_completed := false,
    profit_pct := 0, exit_price := none, exit_time := none, result := "-",
    publish_time := some 0, triggered_time := none, hold_time := none,
    has_entered := false, entry_status := "未入场", triggered := false }

/-! ## Helper lemmas -/

/-- A character list is a prefix of itself followed by anything. -/
theorem list_isPrefixOf_append (l t : List Char) :
    l.isPrefixOf (l ++ t) = true := by
  induction l with
  | nil => simp
  | cons a as ih => simp [List.isPrefixOf_cons₂, ih]

/-- `startswith` holds of a string extended by anything. -/
theorem startswith_append (a b : String) :
    startswith a (a ++ b) = true := by
  cases a with
  | mk da =>
      cases b with
      | mk db => simp [startswith, list_isPrefixOf_append]

/-- Rounding zero to any precision gives zero. -/
theorem pyRound_zero (n : ℕ) : pyRound 0 n = 0 := by
  simp [pyRound]

/-! ## Claims -/

/-- **C5.** For every call to the change publisher (`should_push_data`), a
push happens if and only if both gates pass: the content fingerprint of the
active and completed order collections differs from the last pushed
fingerprint, and at least `min_push_interval` (15 seconds) has elapsed since
the last push.  In particular a second call within the interval, or a call
with an unchanged fingerprint after the interval, returns false. -/
theorem claim_C5_push_gate (st : Monitor.PushState) (now : ℚ)
    (active completed : List Monitor.PushOrderView) :
    (Monitor.should_push_data st now active completed).1 = true ↔
      (Monitor.min_push_interval ≤ now - st.last_push_time ∧
        Monitor.md5_hex (Monitor.push_data_str active completed)
          ≠ st.last_data_hash) := by
  unfold Monitor.should_push_data
  by_cases h1 : now - st.last_push_time < Monitor.min_push_interval
  · simp [h1, not_le.mpr h1]
  · by_cases h2 :
      Monitor.md5_hex (Monitor.push_data_str active completed)
        = st.last_data_hash
    · simp [h1, h2]
    · simp [h1, h2, not_lt.mp h1]

/-- **C9 (counterexample).** The claim says a cached entry older than a TTL of
approximately 5 seconds is treated as expired and refetched.  At age 10
seconds — well past 5 seconds — the code still serves the stored price (100),
ignoring the available fresh price (999) and leaving the cache untouched: the
actual TTL is `PRICE_CACHE_DURATION = 30` seconds. -/
theorem claim_C9_counterexample :
    Monitor.get_cached_price c9_state 10 "BTCUSDT" (some 999)
      = (some 100, c9_state) ∧ ¬((10 : ℚ) - 0 < 5) := by
  constructor
  · norm_num [Monitor.get_cached_price, c9_state, List.lookup,
      Monitor.PRICE_CACHE_DURATION]
  · norm_num

/-- **C9 (amended).** For every symbol with a cached price `p` stored at time
`t`, `get_cached_price` serves the stored price without consulting the fresh
fetch exactly while the entry is younger than 30 seconds
(`PRICE_CACHE_DURATION`); once the entry is 30 seconds old or older, the
result is whatever the fresh fetch returns. -/
theorem claim_C9_cache_ttl (st : Monitor.PriceCacheState) (now : ℚ)
    (symbol : String) (fetch : Option ℚ) (p t : ℚ)
    (hp : st.price_cache.lookup symbol = some p)
    (ht : st.price_cache_time.lookup symbol = some t) :
    (now - t < Monitor.PRICE_CACHE_DURATION →
      Monitor.get_cached_price st now symbol fetch = (some p, st)) ∧
    (Monitor.PRICE_CACHE_DURATION ≤ now - t →
      (Monitor.get_cached_price st now symbol fetch).1 = fetch) := by
  constructor
  · intro h
    simp [Monitor.get_cached_price, hp, ht, h]
  · intro h
    cases fetch <;> simp [Monitor.get_cached_price, hp, ht, not_lt.mpr h]

/-- **C9 (witness).** For the concrete cache holding BTCUSDT at 100 since
time 0, a read at time 40 returns the fresh fetch 999. -/
theorem claim_C9_witness :
    (Monitor.get_cached_price c9_state 40 "BTCUSDT" (some 999)).1
      = some 999 := by
  refine (claim_C9_cache_ttl c9_state 40 "BTCUSDT" (some 999) 100 0
    (by simp [c9_state, List.lookup]) (by simp [c9_state, List.lookup])).2
    (by norm_num [Monitor.PRICE_CACHE_DURATION])

/-- **C4 (counterexample).** The claim says an expired executed-signal entry
with no matching order at all is removed.  For the concrete record holding
one entry recorded at time 0 and checked at time 20000 (past the 4-hour
cooldown of 14400 seconds) with an empty order-pair table, the prune keeps
the entry: the code only deletes an expired entry when a matching *completed*
order pair exists. -/
theorem claim_C4_counterexample :
    Trader.cooldown ≤ (20000 : ℚ) - 0 ∧
    Trader.clean_expired_signals [(c4_key, 0)] [] 20000 = [(c4_key, 0)] := by
  constructor
  · norm_num [Trader.cooldown]
  · norm_num [Trader.clean_expired_signals, Trader.has_completed_order]

/-- **C4 (amended).** For every executed-signal entry older than the 4-hour
cooldown window, `clean_expired_signals` removes it if and only if some order
pair matching its symbol, side and entry price (within 0.1% relative
tolerance) has been closed by stop loss or take profit; in particular an
expired entry with no matching order at all is kept. -/
theorem claim_C4_prune (record : List (Trader.SignalKey × ℚ))
    (pairs : List Trader.OrderPair) (now : ℚ) (k : Trader.SignalKey) (t : ℚ)
    (hmem : (k, t) ∈ record) (hexp : Trader.cooldown ≤ now - t)
    (hpos : 0 < k.entry_price) :
    ((k, t) ∈ Trader.clean_expired_signals record pairs now ↔
      Trader.has_completed_order k pairs = false) := by
  simp [Trader.clean_expired_signals, List.mem_filter, hmem, hexp]

/-- **C4 (witness).** The concrete expired entry is pruned-or-kept according
to the completed-pair test against a one-pair table. -/
theorem claim_C4_witness :
    ((c4_key, (0 : ℚ)) ∈
        Trader.clean_expired_signals [(c4_key, 0)]
          [{ symbol := "BTCUSDT", side := "BUY", entry_price := some 100,
             status := "closed_by_stop_loss" }] 20000 ↔
      Trader.has_completed_order c4_key
          [{ symbol := "BTCUSDT", side := "BUY", entry_price := some 100,
             status := "closed_by_stop_loss" }] = false) := by
  refine claim_C4_prune _ _ 20000 c4_key 0 (by simp) (by norm_num [Trader.cooldown])
    (by norm_num [c4_key])

/-- **C6.** For every signal processed by the `execute_trading_signals` loop
body, if the order-placement call fails (`place_order` returns a falsy
result) the executed-signal record is left unchanged, so the signal can be
retried later; the record is only ever written after a successful
placement. -/
theorem claim_C6_no_mark_on_failure (record : List (Trader.SignalKey × ℚ))
    (s : Trader.Signal) (now : ℚ) (g : Trader.ExecGates)
    (h : g.place_order_ok = false) :
    Trader.process_signal record s now g = record := by
  unfold Trader.process_signal
  repeat' split <;> simp_all

/-- **C6 (witness).** With every pre-check passing but `place_order` failing,
processing the concrete signal leaves an empty record empty. -/
theorem claim_C6_witness :
    Trader.process_signal [] c3_signal 1000 c6_gates = [] :=
  claim_C6_no_mark_on_failure [] c3_signal 1000 c6_gates rfl

/-- **C7 (counterexample).** The claim says any input with
`accountBalance ≤ 0` yields the zero-quantity sentinel.  With an available
balance of −1000, neutral statistics, price 100 and leverage 1, the sizer
returns −3/20, a negative quantity rather than zero: only the exact balance 0
produces 0 by arithmetic. -/
theorem claim_C7_counterexample :
    (-1000 : ℚ) ≤ 0 ∧
    Trader.calculate_position_size c7_env (1 / 2) (1 / 50) = -(3 / 20) ∧
    (-(3 / 20) : ℚ) ≠ 0 := by
  refine ⟨by norm_num, ?_, by norm_num⟩
  norm_num [Trader.calculate_position_size, c7_env, min_def, max_def, pyRound]

/-- **C7 (amended).** For every input with account information unavailable,
with available balance exactly 0, or with the current price unavailable
(`None` or falsy 0), `calculate_position_size` returns the zero-quantity
sentinel regardless of the win-rate statistics, signal confidence and
leverage. -/
theorem claim_C7_zero_sentinel (env : Trader.SizerEnv)
    (signal_quality risk_percentage : ℚ)
    (h : env.account_info = none ∨ env.account_info = some 0 ∨
      env.current_price = none ∨ env.current_price = some 0) :
    Trader.calculate_position_size env signal_quality risk_percentage = 0 := by
  obtain ⟨ai, wr, pf, mcl, cpx, lev, qp⟩ := env
  simp only at h
  rcases h with rfl | rfl | rfl | rfl
  · simp [Trader.calculate_position_size]
  · cases cpx with
    | none => simp [Trader.calculate_position_size]
    | some cp =>
        by_cases hz : cp = 0
        · simp [Trader.calculate_position_size, hz]
        · cases qp with
          | none => simp [Trader.calculate_position_size, hz]
          | some prec =>
              simp [Trader.calculate_position_size, hz, pyRound_zero]
  · cases ai with
    | none => simp [Trader.calculate_position_size]
    | some bal => simp [Trader.calculate_position_size]
  · cases ai with
    | none => simp [Trader.calculate_position_size]
    | some bal => simp [Trader.calculate_position_size]

/-- **C7 (witness).** A zero balance with otherwise healthy inputs yields a
zero quantity. -/
theorem claim_C7_witness :
    Trader.calculate_position_size
      { account_info := some 0, recent_win_rate := 1 / 2, profit_factor := 1,
        max_consecutive_losses := 0, current_price := some 100, leverage := 1,
        quantity_precision := some 3 } (1 / 2) (1 / 50) = 0 :=
  claim_C7_zero_sentinel _ (1 / 2) (1 / 50) (Or.inr (Or.inl rfl))

/-- On a simultaneous crossing (both the take-profit and the stop-loss
comparison hold for the order's direction), the completion check reports
take profit: the take-profit branch is evaluated first. -/
theorem check_completion_simultaneous (d : Option String) (p tgt stp : ℚ)
    (h : (Monitor.is_long_dir d = true ∧ tgt ≤ p ∧ p ≤ stp) ∨
      (Monitor.is_short_dir d = true ∧ p ≤ tgt ∧ stp ≤ p)) :
    Monitor.check_completion d p tgt stp = (true, "止盈") := by
  rcases h with ⟨hl, h1, _⟩ | ⟨hs, h1, _⟩
  · simp [Monitor.check_completion, hl, h1]
  · simp only [Monitor.is_short_dir, Bool.or_eq_true, beq_iff_eq] at hs
    rcases hs with rfl | rfl <;>
      simp [Monitor.check_completion, Monitor.is_long_dir,
        Monitor.is_short_dir, h1]

/-- **C1 (counterexample).** The claim says a simultaneous crossing always
yields StopLoss.  For the concrete active long order with target 100 and stop
110, the tick price 105 crosses both thresholds (105 ≥ target and
105 ≤ stop), yet the advance step completes the order with result `"止盈"`
(take profit), not `"止损"` (stop loss). -/
theorem claim_C1_counterexample :
    ((100 : ℚ) ≤ 105 ∧ (105 : ℚ) ≤ 110) ∧
    (Monitor.update_single_order_status c1_order (some 105) 3600).is_completed
      = true ∧
    (Monitor.update_single_order_status c1_order (some 105) 3600).result
      = "止盈" ∧
    "止盈" ≠ "止损" := by
  refine ⟨⟨by norm_num, by norm_num⟩, ?_, ?_, by decide⟩ <;>
    · norm_num [Monitor.update_single_order_status, c1_order, Monitor.symbol_ok,
        Monitor.invalid_symbols, Monitor.compute_profit_pct,
        Monitor.check_completion, Monitor.is_long_dir, Monitor.is_short_dir]
      simp

/-- **C1 (amended).** For every active order whose current tick price
simultaneously satisfies both the take-profit condition and the stop-loss
condition (direction-aware), the advance step marks the order Completed with
result TakeProfit (`"止盈"`), never StopLoss: the take-profit branch is
evaluated first and takes priority on a simultaneous crossing. -/
theorem claim_C1_simultaneous_crossing (o : Monitor.Order) (p now e tgt stp : ℚ)
    (h_status : o.status ≠ "completed") (h_ic : o.is_completed = false)
    (h_sym : Monitor.symbol_ok o.normalized_symbol = true)
    (h_e : o.entry_price = some e) (h_e0 : e ≠ 0)
    (h_t : o.target_price = some tgt) (h_s : o.stop_loss = some stp)
    (h_both : (Monitor.is_long_dir o.direction = true ∧ tgt ≤ p ∧ p ≤ stp) ∨
      (Monitor.is_short_dir o.direction = true ∧ p ≤ tgt ∧ stp ≤ p)) :
    (Monitor.update_single_order_status o (some p) now).is_completed = true ∧
    (Monitor.update_single_order_status o (some p) now).result = "止盈" := by
  have hcc := check_completion_simultaneous o.direction p tgt stp h_both
  obtain ⟨ns, dir, ep, tp, sl, cp, st, ic, pp, xp, xt, res, pubt, trigt, ht,
    he, es, tr⟩ := o
  simp only at h_status h_ic h_sym h_e h_t h_s hcc
  subst h_ic h_e h_t h_s
  simp only [Monitor.update_single_order_status, h_status, h_sym, hcc]
  cases pubt <;> cases trigt <;>
    simp [h_status, h_sym, h_e0, hcc]

/-- **C1 (witness).** The concrete order of the counterexample discharges the
hypotheses of the amended theorem: both thresholds crossed at price 105
yields a completed order with result take profit. -/
theorem claim_C1_witness :
    (Monitor.update_single_order_status c1_order (some 105) 3600).is_completed
      = true ∧
    (Monitor.update_single_order_status c1_order (some 105) 3600).result
      = "止盈" :=
  claim_C1_simultaneous_crossing c1_order 105 3600 100 100 110
    (by decide) rfl (by decide) rfl (by norm_num) rfl rfl
    (Or.inl ⟨by decide, by norm_num, by norm_num⟩)

/-- **C8 (counterexample).** The claim says the recorded hold time is the
entry-to-exit duration in minutes.  The concrete long order published at time
0 completes by stop loss at time 7200 (120 minutes later), yet the recorded
hold time is 2 — the code divides the elapsed seconds by 3600, producing
hours, not minutes. -/
theorem claim_C8_counterexample :
    (Monitor.update_single_order_status c8_order (some 88) 7200).result
      = "止损" ∧
    (Monitor.update_single_order_status c8_order (some 88) 7200).hold_time
      = some 2 ∧
    (2 : ℚ) ≠ 120 := by
  refine ⟨?_, ?_, by norm_num⟩ <;>
    · norm_num [Monitor.update_single_order_status, c8_order, Monitor.symbol_ok,
        Monitor.invalid_symbols, Monitor.compute_profit_pct,
        Monitor.check_completion, Monitor.is_long_dir, Monitor.is_short_dir,
        pyRound, round_eq]
      simp

/-- **C8 (amended).** For every order that the advance step transitions to
Completed with a truthy publish time, the recorded hold time equals
`round((exit_at − publish_time)/3600, 2)` — the elapsed time to the exit
expressed in *hours*, measured from the publish time — provided no separate
entry-trigger time was recorded; when the entry check had recorded a
trigger time (a pandas timestamp), the datetime parse fails and the hold
time is recorded as null. -/
theorem claim_C8_hold_time (o : Monitor.Order) (p now e tgt stp pub : ℚ)
    (h_status : o.status ≠ "completed") (h_ic : o.is_completed = false)
    (h_sym : Monitor.symbol_ok o.normalized_symbol = true)
    (h_e : o.entry_price = some e) (h_e0 : e ≠ 0)
    (h_t : o.target_price = some tgt) (h_s : o.stop_loss = some stp)
    (h_cc : (Monitor.check_completion o.direction p tgt stp).1 = true)
    (h_pub : o.publish_time = some pub) :
    (o.triggered_time = none →
      (Monitor.update_single_order_status o (some p) now).hold_time
        = some (pyRound ((now - pub) / 3600) 2)) ∧
    (∀ tt, o.triggered_time = some tt →
      (Monitor.update_single_order_status o (some p) now).hold_time
        = none) := by
  obtain ⟨ns, dir, ep, tp, sl, cp, st, ic, pp, xp, xt, res, pubt, trigt, ht,
    he, es, tr⟩ := o
  simp only at h_status h_ic h_sym h_e h_t h_s h_cc h_pub
  subst h_ic h_e h_t h_s h_pub
  constructor
  · intro htr
    simp only at htr
    subst htr
    simp [Monitor.update_single_order_status, h_status, h_sym, h_e0, h_cc]
  · intro tt htr
    simp only at htr
    subst htr
    simp [Monitor.update_single_order_status, h_status, h_sym, h_e0, h_cc]

/-- **C8 (witness).** The concrete order published at time 0, completing at
time 7200 with no recorded trigger time, gets hold time
`round((7200 − 0)/3600, 2)` hours. -/
theorem claim_C8_witness :
    (Monitor.update_single_order_status c8_order (some 88) 7200).hold_time
      = some (pyRound ((7200 - 0) / 3600) 2) :=
  (claim_C8_hold_time c8_order 88 7200 100 120 90 0 (by decide) rfl
    (by decide) rfl (by norm_num) rfl rfl
    (by norm_num [c8_order, Monitor.check_completion, Monitor.is_long_dir,
      Monitor.is_short_dir]) rfl).1 rfl

/-- Evaluation of the first tick of the worked example: price 105 does not
trigger the retrace entry (105 > 100) and crosses neither threshold, so the
order merely records the current price and a profit of 5%. -/
theorem c2_tick1_eval :
    c2_tick1 =
      { normalized_symbol := some "BTCUSDT", direction := some "做多",
        entry_price := some 100, target_price := some 120,
        stop_loss := some 90, current_price := some 105, status := "active",
        is_completed := false, profit_pct := 5, exit_price := none,
        exit_time := none, result := "-", publish_time := some 0,
        triggered_time := none, hold_time := none, has_entered := false,
        entry_status := "未入场", triggered := false } := by
  norm_num [c2_tick1, c2_order, c2_hist1, Monitor.advance_tick,
    Monitor.update_entry_status, Monitor.check_entry_triggered,
    Monitor.update_single_order_status, Monitor.entry_long_dirs,
    Monitor.entry_short_dirs, Monitor.symbol_ok, Monitor.invalid_symbols,
    Monitor.compute_profit_pct, Monitor.check_completion,
    Monitor.is_long_dir, Monitor.is_short_dir, List.lookup, List.filter]
  try simp
  try norm_num

/-- Evaluation of the second tick: price 95 triggers the entry (95 ≤ 100)
but does not reach the stop at 90 or the target at 120, so the order stays
active with a profit of −5%. -/
theorem c2_tick2_eval :
    c2_tick2 =
      { normalized_symbol := some "BTCUSDT", direction := some "做多",
        entry_price := some 100, target_price := some 120,
        stop_loss := some 90, current_price := some 95, status := "active",
        is_completed := false, profit_pct := -5, exit_price := none,
        exit_time := none, result := "-", publish_time := some 0,
        triggered_time := some 120, hold_time := none, has_entered := true,
        entry_status := "已入场", triggered := true } := by
  have h : c2_tick2 = Monitor.advance_tick c2_tick1 c2_hist2 (some 95) 120 :=
    rfl
  rw [h, c2_tick1_eval]
  norm_num [c2_hist2, Monitor.advance_tick,
    Monitor.update_entry_status, Monitor.check_entry_triggered,
    Monitor.update_single_order_status, Monitor.entry_long_dirs,
    Monitor.entry_short_dirs, Monitor.symbol_ok, Monitor.invalid_symbols,
    Monitor.compute_profit_pct, Monitor.check_completion,
    Monitor.is_long_dir, Monitor.is_short_dir, List.lookup, List.filter]
  try simp
  try norm_num

/-- **C2 (counterexample).** For the admitted long order with entry 100, stop
90, target 120 and the price sequence [105, 95], the first tick does *not*
transition the order to Entered (a long entry triggers on price ≤ entry, and
105 > 100), and the second tick does *not* complete it (95 is above the stop
at 90): after both ticks the order is still active with no exit recorded —
against the claimed Entered-then-Completed(StopLoss) trace. -/
theorem claim_C2_counterexample :
    c2_tick1.entry_status = "未入场" ∧ c2_tick1.has_entered = false ∧
    c2_tick2.status = "active" ∧ c2_tick2.is_completed = false ∧
    c2_tick2.exit_price = none := by
  rw [c2_tick1_eval, c2_tick2_eval]
  exact ⟨rfl, rfl, rfl, rfl, rfl⟩

/-- **C2 (amended).** For the admitted long order with entry 100, stop 90 and
target 120, the price sequence [105, 95] gives: first tick — no entry
(105 > 100) and no completion, with `profit_pct = 5`; second tick — the entry
triggers (95 ≤ 100), marking the order 已入场 with trigger time 120, but the
order remains Active and uncompleted with `profit_pct = −5`, since 95 is
above the stop at 90; a StopLoss completion would require a tick price of at
most 90. -/
theorem claim_C2_trace :
    (c2_tick1.entry_status = "未入场" ∧ c2_tick1.status = "active" ∧
      c2_tick1.is_completed = false ∧ c2_tick1.profit_pct = 5) ∧
    (c2_tick2.entry_status = "已入场" ∧ c2_tick2.has_entered = true ∧
      c2_tick2.triggered_time = some 120 ∧ c2_tick2.status = "active" ∧
      c2_tick2.is_completed = false ∧ c2_tick2.profit_pct = -5 ∧
      c2_tick2.exit_price = none) := by
  rw [c2_tick1_eval, c2_tick2_eval]
  exact ⟨⟨rfl, rfl, rfl, rfl⟩, ⟨rfl, rfl, rfl, rfl, rfl, rfl, rfl⟩⟩

/-- **C3.** For every signal S marked executed at time `t_exec`, any later
signal S′ with the same symbol, side, entry price, stop loss, target price
and source channel (its time bucket may differ) is reported as already
executed (`is_signal_executed` returns true, so `accept` is false) when
checked within the 4-hour cooldown window after S's execution: the stored key
starts with S′'s base key, which drops only the time bucket. -/
theorem claim_C3_base_key_dedup (record : List (Trader.SignalKey × ℚ))
    (s s' : Trader.Signal) (t_exec now : ℚ)
    (h_sym : s'.symbol = s.symbol) (h_side : s'.side = s.side)
    (h_entry : s'.entry_price = s.entry_price)
    (h_stop : s'.stop_loss = s.stop_loss)
    (h_tgt : s'.target_price = s.target_price)
    (h_ch : s'.channel = s.channel)
    (h_cd : now - t_exec < Trader.cooldown) :
    Trader.is_signal_executed (Trader.mark_signal_executed record s t_exec)
      now s' = true := by
  have hbase : Trader.base_string (Trader.get_signal_key s' now)
      = Trader.base_string (Trader.get_signal_key s t_exec) := by
    simp [Trader.base_string, Trader.get_signal_key, h_sym, h_side, h_entry,
      h_stop, h_tgt, h_ch]
  have hpre : startswith (Trader.base_string (Trader.get_signal_key s' now))
      (Trader.key_string (Trader.get_signal_key s t_exec)) = true := by
    rw [hbase, Trader.key_string, String.append_assoc]
    exact startswith_append _ _
  unfold Trader.is_signal_executed Trader.mark_signal_executed
  simp [List.any_cons, hpre, h_cd]

/-- **C3 (witness).** The concrete signal, marked executed at time 1000, is
reported as already executed when the same signal recurs at time 2000. -/
theorem claim_C3_witness :
    Trader.is_signal_executed (Trader.mark_signal_executed [] c3_signal 1000)
      2000 c3_signal = true :=
  claim_C3_base_key_dedup [] c3_signal c3_signal 1000 2000 rfl rfl rfl rfl rfl
    rfl (by norm_num [Trader.cooldown])

/-- A single advance step on an order whose direction is in neither the long
list `['多', '做多']` nor the short list `['空', '做空']` never completes the
order and changes neither its status nor its direction. -/
theorem update_preserves_unknown_direction (o : Monitor.Order)
    (pr : Option ℚ) (now : ℚ)
    (hl : Monitor.is_long_dir o.direction = false)
    (hs : Monitor.is_short_dir o.direction = false)
    (hic : o.is_completed = false) :
    (Monitor.update_single_order_status o pr now).is_completed = false ∧
    (Monitor.update_single_order_status o pr now).status = o.status ∧
    (Monitor.update_single_order_status o pr now).direction = o.direction := by
  obtain ⟨ns, dir, ep, tp, sl, cp, st, ic, pp, xp, xt, res, pubt, trigt, ht,
    he, es, tr⟩ := o
  simp only at hl hs hic
  subst hic
  by_cases hst : st = "completed"
  · simp [Monitor.update_single_order_status, hst]
  · cases pr with
    | none => simp [Monitor.update_single_order_status, hst]
    | some p =>
        cases hsym : Monitor.symbol_ok ns with
        | false => simp [Monitor.update_single_order_status, hst, hsym]
        | true =>
            cases ep with
            | none => simp [Monitor.update_single_order_status, hst, hsym]
            | some e =>
                by_cases he0 : e = 0
                · simp [Monitor.update_single_order_status, hst, hsym, he0]
                · cases tp <;> cases sl <;>
                    simp [Monitor.update_single_order_status, hst, hsym, he0,
                      Monitor.check_completion, hl, hs]

/-- Iterating the advance step over any sequence of price readings preserves
non-completion, the status and the direction of an order with an unknown
direction. -/
theorem fold_preserves_unknown_direction (now : ℚ)
    (prices : List (Option ℚ)) :
    ∀ o : Monitor.Order, Monitor.is_long_dir o.direction = false →
      Monitor.is_short_dir o.direction = false → o.is_completed = false →
      ((prices.foldl
          (fun acc pr => Monitor.update_single_order_status acc pr now)
          o).is_completed = false ∧
        (prices.foldl
          (fun acc pr => Monitor.update_single_order_status acc pr now)
          o).status = o.status ∧
        (prices.foldl
          (fun acc pr => Monitor.update_single_order_status acc pr now)
          o).direction = o.direction) := by
  induction prices with
  | nil => exact fun o _ _ hic => ⟨hic, rfl, rfl⟩
  | cons pr rest ih =>
      intro o hl hs hic
      obtain ⟨h1, h2, h3⟩ := update_preserves_unknown_direction o pr now hl hs
        hic
      obtain ⟨g1, g2, g3⟩ :=
        ih (Monitor.update_single_order_status o pr now)
          (by rw [h3]; exact hl) (by rw [h3]; exact hs) h1
      simp only [List.foldl_cons]
      exact ⟨g1, g2.trans h2, g3.trans h3⟩

/-- **C10.** For every active order whose direction string is not one of
`'多'`, `'做多'`, `'空'`, `'做空'` (for example `'LONG'` or `'多单'`, both of
which the entry-trigger check accepts as long), the advance step never
transitions it to Completed via the stop/target comparison over any sequence
of ticks — it stays active — while its `profit_pct` is still computed each
tick using the long formula as the default. -/
theorem claim_C10_unknown_direction (o : Monitor.Order) (d : String)
    (hd : o.direction = some d)
    (hnot : d ∉ (["多", "做多", "空", "做空"] : List String))
    (h_status : o.status = "active") (h_ic : o.is_completed = false)
    (prices : List (Option ℚ)) (now : ℚ) (p e : ℚ) :
    ((prices.foldl
        (fun acc pr => Monitor.update_single_order_status acc pr now)
        o).is_completed = false ∧
      (prices.foldl
        (fun acc pr => Monitor.update_single_order_status acc pr now)
        o).status = "active") ∧
    (o.entry_price = some e → e ≠ 0 →
      Monitor.symbol_ok o.normalized_symbol = true →
      (Monitor.update_single_order_status o (some p) now).profit_pct
        = (p - e) / e * 100) ∧
    ("LONG" ∈ Monitor.entry_long_dirs ∧ "多单" ∈ Monitor.entry_long_dirs ∧
      Monitor.is_long_dir (some "LONG") = false ∧
      Monitor.is_short_dir (some "LONG") = false ∧
      Monitor.is_long_dir (some "多单") = false ∧
      Monitor.is_short_dir (some "多单") = false) := by
  simp only [List.mem_cons, List.not_mem_nil, or_false, not_or] at hnot
  obtain ⟨hn1, hn2, hn3, hn4⟩ := hnot
  have hl : Monitor.is_long_dir o.direction = false := by
    simp [Monitor.is_long_dir, hd, hn1, hn2]
  have hs : Monitor.is_short_dir o.direction = false := by
    simp [Monitor.is_short_dir, hd, hn3, hn4]
  refine ⟨?_, ?_, by decide⟩
  · obtain ⟨g1, g2, -⟩ :=
      fold_preserves_unknown_direction now prices o hl hs h_ic
    rw [h_status] at g2
    exact ⟨g1, g2⟩
  · intro hep he0 hsym
    obtain ⟨ns, dir, ep, tp, sl, cp, st, ic, pp, xp, xt, res, pubt, trigt, ht,
      he, es, tr⟩ := o
    simp only at hep hsym hl hs h_status h_ic
    subst hep h_status h_ic
    cases tp <;> cases sl <;>
      simp [Monitor.update_single_order_status, hsym, he0,
        Monitor.compute_profit_pct, Monitor.check_completion, hl, hs]

/-- **C10 (witness).** A concrete active order with direction `'LONG'` stays
active and uncompleted across the tick sequence [105, 95, 85] — price 85 is
below its stop 90, which would complete a `'做多'` order — and a single tick
at price 95 computes the long-formula profit −5. -/
theorem claim_C10_witness :
    (([some 105, some 95, some 85].foldl
        (fun acc pr => Monitor.update_single_order_status acc pr 60)
        c10_order).is_completed = false ∧
      ([some 105, some 95, some 85].foldl
        (fun acc pr => Monitor.update_single_order_status acc pr 60)
        c10_order).status = "active") ∧
    (Monitor.update_single_order_status c10_order (some 95) 60).profit_pct
      = (95 - 100) / 100 * 100 :=
  have h := claim_C10_unknown_direction c10_order "LONG" rfl (by decide) rfl
    rfl [some 105, some 95, some 85] 60 95 100
  ⟨h.1, h.2.1 rfl (by norm_num) (by decide)⟩
